import Mathlib

/-
Verification development for the product-core API: a shallow embedding of the
tenant-access resolver (app/core/dependencies.py), the RLS session dependency
(app/core/database.py), the support impersonation session endpoints
(app/routers/support.py) and the Plaid cursor-sync engine
(app/services/plaid_service.py), together with theorems settling the frozen
behavioural claims about them.

Modelling conventions:
  - UUIDs and user ids are opaque `String`s; timestamps are `Nat` epoch seconds;
    monetary amounts are `Int` (exact decimal values are only copied, never
    computed with, so any type with decidable equality is faithful).
  - SQLAlchemy result sets are `List`s of row structures; `scalar_one_or_none`
    over a unique key becomes `List.find?`.
  - Python `Optional` becomes `Option`; a raised exception becomes an explicit
    error constructor of the returned type.
  - The Plaid client is an oracle: the successive results of
    `client.transactions_sync` are a `List (Option SyncPage)`, where `none`
    (or exhaustion of the list while the loop still wants a page) models the
    provider call raising.
-/

namespace ProductCore

/-! ## Data model: app/models/plaid.py -/

/-- Row of `plaid_items` (models/plaid.py, class PlaidItem).  Note: the model
declares NO `sync_frequency_hours` column; see `plaidItemColumns` below. -/
structure PlaidItem where
  id : String
  tenant_id : String
  user_id : String
  item_id : String
  encrypted_access_token : String
  institution_id : Option String
  institution_name : Option String
  transaction_cursor : Option String
  is_active : Bool
  last_synced_at : Option Nat
  created_at : Nat
  updated_at : Option Nat
deriving Repr, DecidableEq

/-- Mapped column names of the PlaidItem ORM class, exactly as declared in
models/plaid.py.  Accessing any other attribute on the class (as
`sync_due_items` does with `PlaidItem.sync_frequency_hours`) raises
`AttributeError` in Python. -/
def plaidItemColumns : List String :=
  ["id", "tenant_id", "user_id", "item_id", "encrypted_access_token",
   "institution_id", "institution_name", "transaction_cursor", "is_active",
   "last_synced_at", "created_at", "updated_at"]

/-- Row of `transactions` (models/plaid.py, class Transaction).
`plaid_transaction_id` carries a UNIQUE index. -/
structure TransactionRow where
  tenant_id : String
  plaid_item_id : String
  plaid_transaction_id : String
  account_id : String
  amount : Int
  iso_currency_code : Option String
  name : String
  merchant_name : Option String
  category_primary : Option String
  category_detailed : Option String
  transaction_date : Nat
  authorized_date : Option Nat
  pending : Bool
  payment_channel : Option String
  created_at : Nat
  updated_at : Option Nat
deriving Repr, DecidableEq

/-! ## Provider payloads: the fields of a Plaid transaction object that
`_upsert_transaction` reads -/

/-- One entry of a sync page's `added` / `modified` set.
`personal_finance_category` is `(primary, detailed)` when present. -/
structure PlaidTxnPayload where
  transaction_id : String
  account_id : String
  amount : Int
  iso_currency_code : Option String
  name : String
  merchant_name : Option String
  personal_finance_category : Option (String × String)
  date : Nat
  authorized_date : Option Nat
  pending : Bool
  payment_channel : Option String
deriving Repr, DecidableEq

/-- One page returned by `client.transactions_sync`; `removed` carries the
transaction ids to delete. -/
structure SyncPage where
  added : List PlaidTxnPayload
  modified : List PlaidTxnPayload
  removed : List String
  next_cursor : String
  has_more : Bool
deriving Repr, DecidableEq

/-! ## app/services/plaid_service.py: `_upsert_transaction` and
`_remove_transaction` -/

/-- Category extraction at the top of `_upsert_transaction`: both fields stay
`None` unless the payload carries a `personal_finance_category`. -/
def categoryOf (txn : PlaidTxnPayload) : Option String × Option String :=
  match txn.personal_finance_category with
  | some pd => (some pd.1, some pd.2)
  | none => (none, none)

/-- The freshly inserted row built by the `pg_insert(Transaction).values(...)`
call: `created_at` comes from the column default (`now`), `updated_at` stays
NULL until a later conflict-update bumps it. -/
def newTransactionRow (item : PlaidItem) (txn : PlaidTxnPayload) (now : Nat) :
    TransactionRow :=
  { tenant_id := item.tenant_id
    plaid_item_id := item.id
    plaid_transaction_id := txn.transaction_id
    account_id := txn.account_id
    amount := txn.amount
    iso_currency_code := txn.iso_currency_code
    name := txn.name
    merchant_name := txn.merchant_name
    category_primary := (categoryOf txn).1
    category_detailed := (categoryOf txn).2
    transaction_date := txn.date
    authorized_date := txn.authorized_date
    pending := txn.pending
    payment_channel := txn.payment_channel
    created_at := now
    updated_at := none }

/-- The `on_conflict_do_update` SET list of `_upsert_transaction`: exactly
amount, name, merchant_name, category_primary, category_detailed, pending,
payment_channel and `updated_at := now`; every other column (tenant_id,
plaid_item_id, account_id, iso_currency_code, dates, created_at) keeps the
stored value. -/
def updateOnConflict (r : TransactionRow) (txn : PlaidTxnPayload) (now : Nat) :
    TransactionRow :=
  { r with
    amount := txn.amount
    name := txn.name
    merchant_name := txn.merchant_name
    category_primary := (categoryOf txn).1
    category_detailed := (categoryOf txn).2
    pending := txn.pending
    payment_channel := txn.payment_channel
    updated_at := some now }

/-- `_upsert_transaction`: insert keyed by the unique `plaid_transaction_id`;
on conflict, update only the mutable fields.  The UNIQUE index guarantees at
most one conflicting row; mapping over all key-matching rows is therefore the
same update the database performs. -/
def upsertTransaction (db : List TransactionRow) (item : PlaidItem)
    (txn : PlaidTxnPayload) (now : Nat) : List TransactionRow :=
  if db.any (fun r => r.plaid_transaction_id == txn.transaction_id) then
    db.map (fun r =>
      if r.plaid_transaction_id == txn.transaction_id then
        updateOnConflict r txn now
      else r)
  else
    db ++ [newTransactionRow item txn now]

/-- `_remove_transaction`: delete the row with the given plaid transaction id
if present; absence is not an error.  (The id column is UNIQUE, so filtering
all matches deletes the single selected row.) -/
def removeTransaction (db : List TransactionRow) (txid : String) :
    List TransactionRow :=
  db.filter (fun r => !(r.plaid_transaction_id == txid))

/-! ## `_sync_item_transactions`: the per-item cursor loop -/

/-- The summary dict threaded through the sync functions.
`sync_transactions` uses all fields but `items_skipped`;
`sync_due_items` initializes `items_skipped` as well (and never increments
it). -/
structure SyncSummary where
  items_processed : Nat := 0
  items_skipped : Nat := 0
  items_failed : Nat := 0
  transactions_added : Nat := 0
  transactions_modified : Nat := 0
  transactions_removed : Nat := 0
deriving Repr, DecidableEq

/-- Body of one iteration of the `while has_more` loop, given a successfully
fetched page: per entry, upsert and bump the matching counter; then the
removed ids. -/
def processPage (item : PlaidItem) (page : SyncPage) (now : Nat)
    (st : List TransactionRow × SyncSummary) :
    List TransactionRow × SyncSummary :=
  let st1 := page.added.foldl
    (fun st txn =>
      (upsertTransaction st.1 item txn now,
       { st.2 with transactions_added := st.2.transactions_added + 1 })) st
  let st2 := page.modified.foldl
    (fun st txn =>
      (upsertTransaction st.1 item txn now,
       { st.2 with transactions_modified := st.2.transactions_modified + 1 })) st1
  page.removed.foldl
    (fun st txid =>
      (removeTransaction st.1 txid,
       { st.2 with transactions_removed := st.2.transactions_removed + 1 })) st2

/-- Result of `_sync_item_transactions`.  `ok` means the while-loop finished
(`has_more` became false), after which — and only then — the function writes
`transaction_cursor` and `last_synced_at` on the item row and flushes.
`err` means an exception escaped (the access-token decryption failed, or a
page fetch raised): the item row is returned untouched, while the database
rows and the summary keep every change already made (the dict is mutated in
place; the executed statements stay pending in the transaction). -/
inductive ItemSyncResult where
  | ok (item : PlaidItem) (db : List TransactionRow) (s : SyncSummary)
  | err (item : PlaidItem) (db : List TransactionRow) (s : SyncSummary)
deriving Repr, DecidableEq

/-- The `while has_more` loop.  `responses` are the successive results of
`client.transactions_sync`; `none` — or running out of modelled responses
while the loop still wants a page — is the provider call raising.  The
`_cursor` argument is the local `cursor` variable (sent to the provider,
otherwise unused by the loop itself); on normal exit the *last* page's
`next_cursor` is what gets persisted. -/
def syncPagesLoop (item : PlaidItem) (now : Nat) :
    List (Option SyncPage) → String → List TransactionRow → SyncSummary →
    ItemSyncResult
  | [], _cursor, db, s => .err item db s
  | none :: _, _cursor, db, s => .err item db s
  | some page :: rest, _cursor, db, s =>
    let st := processPage item page now (db, s)
    if page.has_more then
      syncPagesLoop item now rest page.next_cursor st.1 st.2
    else
      .ok { item with
              transaction_cursor := some page.next_cursor,
              last_synced_at := some now }
        st.1 st.2

/-- `_sync_item_transactions`: decrypt the token (`none` models
`decrypt_token` raising, e.g. `InvalidToken`), initialize the cursor from
`plaid_item.transaction_cursor or ""`, and run the page loop. -/
def syncItemTransactions (item : PlaidItem) (decrypted : Option String)
    (responses : List (Option SyncPage)) (db : List TransactionRow)
    (s : SyncSummary) (now : Nat) : ItemSyncResult :=
  match decrypted with
  | none => .err item db s
  | some _access_token =>
    syncPagesLoop item now responses (item.transaction_cursor.getD "") db s

/-! ## Batch sync: `sync_transactions` and `sync_due_items` -/

/-- Python truthiness of an optional environment string:
`not x` is true for `None` and for the empty string. -/
def truthy : Option String → Bool
  | none => false
  | some s => !(s == "")

/-- The provider configuration read at module import
(`PLAID_CLIENT_ID` / `PLAID_SECRET`). -/
structure PlaidConfig where
  client_id : Option String
  secret : Option String
deriving Repr, DecidableEq

/-- The guard of `get_plaid_client`:
`if not PLAID_CLIENT_ID or not PLAID_SECRET: raise ValueError(...)`. -/
def plaidClientOk (cfg : PlaidConfig) : Bool :=
  truthy cfg.client_id && truthy cfg.secret

/-- One item of a batch run together with its environment behaviour: the
outcome of decrypting its stored token and the provider's successive page
responses for it. -/
structure BatchItemRun where
  item : PlaidItem
  decrypted : Option String
  responses : List (Option SyncPage)
deriving Repr, DecidableEq

/-- Errors that abort a whole batch call. `valueError` is the missing
credential configuration raised by `get_plaid_client`;
`attributeError` is Python's AttributeError. -/
inductive BatchError where
  | valueError
  | attributeError
deriving Repr, DecidableEq

/-- The `for plaid_item in plaid_items` loop shared by `sync_transactions`
and (unreachably, see `syncDueItems`) `sync_due_items`: each item's sync runs
inside `try`, a raise increments `items_failed` and the loop continues;
success increments `items_processed`.  Returns the item rows after the run
(in batch order), the transaction table, and the summary. -/
def runBatchLoop (now : Nat) :
    List BatchItemRun → List PlaidItem → List TransactionRow → SyncSummary →
    List PlaidItem × List TransactionRow × SyncSummary
  | [], doneItems, db, s => (doneItems.reverse, db, s)
  | r :: rest, doneItems, db, s =>
    match syncItemTransactions r.item r.decrypted r.responses db s now with
    | .ok item1 db1 s1 =>
      runBatchLoop now rest (item1 :: doneItems) db1
        { s1 with items_processed := s1.items_processed + 1 }
    | .err item1 db1 s1 =>
      runBatchLoop now rest (item1 :: doneItems) db1
        { s1 with items_failed := s1.items_failed + 1 }

/-- `sync_transactions`: fail fast on missing provider credentials, select
the active items, run the per-item loop, commit everything at the end. -/
def syncTransactions (cfg : PlaidConfig) (runs : List BatchItemRun)
    (db : List TransactionRow) (now : Nat) :
    Except BatchError (List PlaidItem × List TransactionRow × SyncSummary) :=
  if plaidClientOk cfg then
    .ok (runBatchLoop now (runs.filter (fun r => r.item.is_active)) [] db {})
  else
    .error .valueError

/-- `sync_due_items`: after the credential guard, the function builds
`select(PlaidItem).where(..., PlaidItem.sync_frequency_hours, ...)` — but the
PlaidItem ORM class of models/plaid.py declares no `sync_frequency_hours`
column (see `plaidItemColumns`), so that attribute access raises
`AttributeError` before any item is read; nothing after the query
construction is reachable, and the due filter cannot even be embedded because
item rows carry no such field to compare with. -/
def syncDueItems (cfg : PlaidConfig) (_runs : List BatchItemRun) (_now : Nat) :
    Except BatchError SyncSummary :=
  if plaidClientOk cfg then
    .error .attributeError
  else
    .error .valueError

/-- The due-items filter as documented by the `sync_due_items` docstring and
by routers/plaid.py ("Only syncs items where (now - last_synced_at) >
sync_frequency_hours"): never-synced items are due, otherwise strictly more
than `sync_frequency_hours` hours must have passed.  Modelled from that
documentation because the declared PlaidItem model has no
`sync_frequency_hours` column to run the real query against;
`now`/`last_synced_at` are epoch seconds. -/
def intendedDueFilter (now : Nat) (last_synced_at : Option Nat)
    (sync_frequency_hours : Nat) : Bool :=
  match last_synced_at with
  | none => true
  | some t => now - t > sync_frequency_hours * 3600

/-! ## Data model: app/models/tenant.py -/

/-- TenantType enum. -/
inductive TenantType where
  | organization
  | individual
deriving Repr, DecidableEq

/-- UserRole enum (tenant-level roles plus platform staff roles). -/
inductive UserRole where
  | owner
  | admin
  | member
  | viewer
  | platform_admin
  | support_agent
deriving Repr, DecidableEq

/-- Row of `tenants` (models/tenant.py, class Tenant). -/
structure Tenant where
  id : String
  slug : String
  name : String
  type : TenantType
  owner_user_id : Option String
  is_active : Bool
  settings : Option String
deriving Repr, DecidableEq

/-- Row of `user_tenants` (models/tenant.py, class UserTenant); one row per
(user_id, tenant_id) by unique constraint. -/
structure UserTenant where
  id : String
  user_id : String
  tenant_id : String
  role : UserRole
  support_access_enabled : Bool
  support_access_expires_at : Option Nat
  support_access_granted_by : Option String
  is_active : Bool
deriving Repr, DecidableEq

/-- Row of `support_access_logs` (models/tenant.py, class SupportAccessLog);
append-only. -/
structure SupportAccessLog where
  support_user_id : String
  tenant_id : String
  action : String
  reason : Option String
  ip_address : Option String
deriving Repr, DecidableEq

/-! ## app/core/middleware.py: the decoded JWT -/

/-- Decoded JWT payload (middleware.py, class TokenData); `role` is a plain
string claim. -/
structure TokenData where
  sub : String
  tenant_id : String
  role : String
deriving Repr, DecidableEq

/-! ## app/core/dependencies.py: tenant resolution -/

/-- Resolved tenant context (dependencies.py, class TenantContext). -/
structure TenantContext where
  tenant : Tenant
  user_membership : Option UserTenant
  is_support_access : Bool
  is_platform_admin : Bool
deriving Repr, DecidableEq

/-- The tenant/membership/audit store visible to the resolver. -/
structure ResolverDb where
  tenants : List Tenant
  memberships : List UserTenant
  support_logs : List SupportAccessLog
deriving Repr, DecidableEq

/-- `get_tenant_by_slug`: active tenant with the given slug (slug is UNIQUE). -/
def get_tenant_by_slug (db : ResolverDb) (slug : String) : Option Tenant :=
  db.tenants.find? (fun t => t.slug == slug && t.is_active)

/-- `get_user_tenant_membership`: the active membership row for
(user, tenant); at most one row exists by unique constraint. -/
def get_user_tenant_membership (db : ResolverDb) (user_id tenant_id : String) :
    Option UserTenant :=
  db.memberships.find? (fun m =>
    m.user_id == user_id && m.tenant_id == tenant_id && m.is_active)

/-- `verify_support_access`: an active membership with
`support_access_enabled` must exist, and then the code denies only when
`support_access_expires_at < now` (its docstring instead demands
`support_access_expires_at > now`, so at equality code and documentation
disagree — see claim C2). -/
def verify_support_access (db : ResolverDb) (user_id tenant_id : String)
    (now : Nat) : Bool :=
  match db.memberships.find? (fun m =>
      m.user_id == user_id && m.tenant_id == tenant_id &&
      m.support_access_enabled && m.is_active) with
  | none => false
  | some m =>
    match m.support_access_expires_at with
    | some e => if e < now then false else true
    | none => true

/-- `log_support_access`: append an audit row. -/
def log_support_access (db : ResolverDb) (support_user_id tenant_id : String)
    (action : String) (reason : Option String) (ip_address : Option String) :
    ResolverDb :=
  { db with support_logs := db.support_logs ++
      [{ support_user_id := support_user_id, tenant_id := tenant_id,
         action := action, reason := reason, ip_address := ip_address }] }

/-- Typed denials raised by the resolver (`HTTPException` status kinds). -/
inductive HttpError where
  | notFound
  | forbidden
deriving Repr, DecidableEq

deriving instance DecidableEq for Except

/-- Everything `get_current_tenant` leaves behind: the returned context or
the raised denial, the store (audit rows appended, tenants/memberships
possibly auto-created on the personal path), and the request-scoped
`current_tenant_id` context variable as of exit. -/
structure ResolveOutcome where
  result : Except HttpError TenantContext
  db : ResolverDb
  ctxVar : Option String
deriving Repr, DecidableEq

/-- `_create_individual_tenant`: deterministic slug from the user id
(`@` and `.` replaced by `-`, truncated to 50 characters, prefixed), fresh
UUID taken as a parameter. -/
def create_individual_tenant (fresh_tenant_id user_id : String) : Tenant :=
  { id := fresh_tenant_id
    slug := "user-" ++ (((user_id.replace "@" "-").replace "." "-").take 50)
    name := "Personal"
    type := TenantType.individual
    owner_user_id := some user_id
    is_active := true
    settings := none }

/-- `get_current_tenant` (dependencies.py lines 123-255).  `ctxVar0` is the
value of `current_tenant_id` on entry; `fresh_ids` supplies the uuid4 values
a personal-path auto-creation would use; `support_secret` is the
process-wide `SUPPORT_ACCESS_SECRET`; `now` is the clock read inside
`verify_support_access`. -/
def get_current_tenant (db : ResolverDb) (ctxVar0 : Option String)
    (x_tenant_slug x_support_token : Option String)
    (support_secret : Option String) (user : TokenData)
    (client_ip : Option String) (now : Nat) (fresh_ids : String × String) :
    ResolveOutcome :=
  let is_platform_admin := user.role == "platform_admin"
  let is_support_agent := user.role == "support_agent"
  -- `if not x_tenant_slug or x_tenant_slug == "personal"` (empty string is falsy)
  let personal := match x_tenant_slug with
    | none => true
    | some s => s == "" || s == "personal"
  if personal then
    -- Individual Mode: find (or auto-create) the caller's individual tenant
    let found := db.tenants.find? (fun t =>
      t.owner_user_id == some user.sub &&
      t.type == TenantType.individual && t.is_active)
    let tenant := found.getD (create_individual_tenant fresh_ids.1 user.sub)
    let db1 := match found with
      | some _ => db
      | none => { db with tenants := db.tenants ++ [tenant] }
    -- current_tenant_id.set(str(tenant.id))
    let ctx1 := some tenant.id
    let foundM := get_user_tenant_membership db1 user.sub tenant.id
    let membership := foundM.getD
      { id := fresh_ids.2, user_id := user.sub, tenant_id := tenant.id,
        role := UserRole.owner, support_access_enabled := false,
        support_access_expires_at := none, support_access_granted_by := none,
        is_active := true }
    let db2 := match foundM with
      | some _ => db1
      | none => { db1 with memberships := db1.memberships ++ [membership] }
    { result := .ok
        { tenant := tenant, user_membership := some membership,
          is_support_access := false, is_platform_admin := is_platform_admin }
      db := db2, ctxVar := ctx1 }
  else
    -- Organization Mode: resolve by slug
    let slug := x_tenant_slug.getD ""
    match get_tenant_by_slug db slug with
    | none =>
      { result := .error .notFound, db := db, ctxVar := ctxVar0 }
    | some tenant =>
      -- current_tenant_id.set(str(tenant.id)) — before any further branching
      let ctx1 := some tenant.id
      if is_platform_admin then
        { result := .ok
            { tenant := tenant, user_membership := none,
              is_support_access := false, is_platform_admin := true }
          db := db, ctxVar := ctx1 }
      else if is_support_agent then
        -- `if SUPPORT_ACCESS_SECRET and x_support_token != SUPPORT_ACCESS_SECRET`
        if truthy support_secret && !(x_support_token == support_secret) then
          { result := .error .forbidden, db := db, ctxVar := ctx1 }
        else if verify_support_access db user.sub tenant.id now then
          { result := .ok
              { tenant := tenant, user_membership := none,
                is_support_access := true, is_platform_admin := false }
            db := log_support_access db user.sub tenant.id "data_viewed"
                    none client_ip
            ctxVar := ctx1 }
        else
          { result := .error .forbidden, db := db, ctxVar := ctx1 }
      else
        match get_user_tenant_membership db user.sub tenant.id with
        | none =>
          { result := .error .forbidden, db := db, ctxVar := ctx1 }
        | some membership =>
          { result := .ok
              { tenant := tenant, user_membership := some membership,
                is_support_access := false, is_platform_admin := false }
            db := db, ctxVar := ctx1 }

/-! ## app/routers/support.py: impersonation session store -/

/-- One entry of the in-memory `_active_sessions` dict. -/
structure ImpSession where
  user_id : String
  user_role : String
  tenant_id : String
  tenant_slug : String
  tenant_name : String
  started_at : Nat
  expires_at : Nat
deriving Repr, DecidableEq

/-- The `_active_sessions` dict: session id → session (keys unique). -/
abbrev SessionStore := List (String × ImpSession)

/-- `cleanup_expired_sessions`: delete every session whose
`expires_at < now`. -/
def cleanup_expired_sessions (store : SessionStore) (now : Nat) : SessionStore :=
  store.filter (fun kv => !(decide (kv.2.expires_at < now)))

/-- Outcome of `end_impersonation`. -/
inductive EndResult where
  | notFound
  | forbidden
  | ended
deriving Repr, DecidableEq

/-- `end_impersonation` (support.py lines 134-173): look the session up
directly in the store — no expiry sweep and no expiry check happen on this
path — 404 when absent, 403 when the caller neither owns it nor is a
platform admin, otherwise audit `impersonation_ended` and delete the entry. -/
def end_impersonation (store : SessionStore) (logs : List SupportAccessLog)
    (session_id : String) (user : TokenData) :
    EndResult × SessionStore × List SupportAccessLog :=
  match store.find? (fun kv => kv.1 == session_id) with
  | none => (.notFound, store, logs)
  | some kv =>
    if kv.2.user_id != user.sub && user.role != "platform_admin" then
      (.forbidden, store, logs)
    else
      (.ended,
       store.filter (fun x => !(x.1 == session_id)),
       logs ++ [{ support_user_id := user.sub, tenant_id := kv.2.tenant_id,
                  action := "impersonation_ended",
                  reason := some ("Session " ++ session_id ++ " ended"),
                  ip_address := none }])

/-- `get_active_sessions` (support.py lines 176-203): sweep expired sessions
first, then list every session (platform admin) or only the caller's own.
Returns the swept store (the global dict after the call) and the listed
entries. -/
def get_active_sessions (store : SessionStore) (user : TokenData) (now : Nat) :
    SessionStore × SessionStore :=
  let store1 := cleanup_expired_sessions store now
  (store1,
   store1.filter (fun kv =>
     user.role == "platform_admin" || kv.2.user_id == user.sub))

/-! ## app/core/database.py: the RLS session dependency -/

/-- The public fallback tenant id (database.py, `PUBLIC_TENANT`). -/
def PUBLIC_TENANT : String := "00000000-0000-0000-0000-000000000000"

/-- Statements `get_db` issues on the session, in order. -/
inductive DbSessionOp where
  | set_tenant (tenant_id : String)
  | commit
  | rollback
  | reset_tenant
deriving Repr, DecidableEq

/-- `get_db` (database.py lines 46-69) as the ordered trace of session
statements: `SET app.current_tenant` to
`current_tenant_id.get() or PUBLIC_TENANT` (Python `or`: the empty string
also falls back), then the request body runs; `commit` on success,
`rollback` on a raise (which is then re-raised), and in both cases the
`finally` block issues `RESET app.current_tenant`. -/
def get_db (ctxVar : Option String) (bodyRaises : Bool) : List DbSessionOp :=
  let tenant_id := match ctxVar with
    | some t => if t == "" then PUBLIC_TENANT else t
    | none => PUBLIC_TENANT
  [DbSessionOp.set_tenant tenant_id] ++
    (if bodyRaises then [DbSessionOp.rollback] else [DbSessionOp.commit]) ++
    [DbSessionOp.reset_tenant]

/-! ## Helper definitions used by the theorems -/

/-- The item row as a run leaves it behind (both outcomes carry it). -/
def ItemSyncResult.itemOf : ItemSyncResult → PlaidItem
  | .ok item _ _ => item
  | .err item _ _ => item

/-- The summary as a run leaves it behind. -/
def ItemSyncResult.summaryOf : ItemSyncResult → SyncSummary
  | .ok _ _ s => s
  | .err _ _ s => s

/-- Whether a run ended with an exception. -/
def ItemSyncResult.isErr : ItemSyncResult → Bool
  | .ok _ _ _ => false
  | .err _ _ _ => true

/-- Whether the page loop, fed these provider responses, raises: it does
exactly when it reaches a failing (or missing) response before some page
reports `has_more = false`. -/
def pagesFail : List (Option SyncPage) → Bool
  | [] => true
  | none :: _ => true
  | some page :: rest => if page.has_more then pagesFail rest else false

/-- Whether an item's run raises, determined solely by its decryption outcome
and its provider responses — never by the database contents or the counters. -/
def runFails (r : BatchItemRun) : Bool :=
  r.decrypted.isNone || pagesFail r.responses

/-- Reconciliation of a list of successfully fetched pages: the fold of the
loop body over them. -/
def applyPages (item : PlaidItem) (now : Nat) (pages : List SyncPage)
    (st : List TransactionRow × SyncSummary) :
    List TransactionRow × SyncSummary :=
  pages.foldl (fun st page => processPage item page now st) st

/-- Total number of `added` entries across pages. -/
def pagesAdded (pages : List SyncPage) : Nat :=
  (pages.map (fun p => p.added.length)).sum

/-- Total number of `modified` entries across pages. -/
def pagesModified (pages : List SyncPage) : Nat :=
  (pages.map (fun p => p.modified.length)).sum

/-- Total number of `removed` entries across pages. -/
def pagesRemoved (pages : List SyncPage) : Nat :=
  (pages.map (fun p => p.removed.length)).sum

/-- A stored row with the `updated_at` bookkeeping field blanked, for stating
"unchanged beyond timestamp bookkeeping". -/
def stripUpdatedAt (r : TransactionRow) : TransactionRow :=
  { r with updated_at := none }

/-- Pointwise order on summaries: every counter at most the other's.  Batch
and page processing only ever increase counters. -/
def summaryLe (a b : SyncSummary) : Prop :=
  a.items_processed ≤ b.items_processed ∧
  a.items_skipped ≤ b.items_skipped ∧
  a.items_failed ≤ b.items_failed ∧
  a.transactions_added ≤ b.transactions_added ∧
  a.transactions_modified ≤ b.transactions_modified ∧
  a.transactions_removed ≤ b.transactions_removed

/-! ## Concrete fixtures for witnesses and counterexamples -/

/-- A well-formed provider configuration. -/
def cfgOk : PlaidConfig := { client_id := some "cid", secret := some "sec" }

/-- An active item that starts the run with resume cursor "c0". -/
def itemA : PlaidItem :=
  { id := "item-1", tenant_id := "tenant-1", user_id := "user-1",
    item_id := "plaid-item-1", encrypted_access_token := "enc",
    institution_id := none, institution_name := none,
    transaction_cursor := some "c0", is_active := true,
    last_synced_at := none, created_at := 0, updated_at := none }

/-- The single transaction T1 of the first page. -/
def txnT1 : PlaidTxnPayload :=
  { transaction_id := "tx-1", account_id := "acc-1", amount := 1250,
    iso_currency_code := some "USD", name := "Coffee",
    merchant_name := some "Cafe", personal_finance_category := none,
    date := 100, authorized_date := none, pending := false,
    payment_channel := some "in store" }

/-- First provider page: `added=[T1]`, `removed=[]`, `has_more=true`,
`next_cursor="c1"`. -/
def pageC1 : SyncPage :=
  { added := [txnT1], modified := [], removed := [],
    next_cursor := "c1", has_more := true }

/-- A never-synced variant of `itemA`, wrapped as a batch run. -/
def dueRun : BatchItemRun :=
  { item := itemA, decrypted := some "tok", responses := [] }

/-- Organization tenant "acme". -/
def tenantAcme : Tenant :=
  { id := "tenant-A", slug := "acme", name := "Acme", type := .organization,
    owner_user_id := none, is_active := true, settings := none }

/-- Organization tenant "beta". -/
def tenantBeta : Tenant :=
  { id := "tenant-B", slug := "beta", name := "Beta", type := .organization,
    owner_user_id := none, is_active := true, settings := none }

/-- Support agent's membership on acme with support access expiring exactly
at time 1000. -/
def supportMembership : UserTenant :=
  { id := "m-1", user_id := "agent-1", tenant_id := "tenant-A",
    role := .support_agent, support_access_enabled := true,
    support_access_expires_at := some 1000,
    support_access_granted_by := some "root", is_active := true }

/-- The calling support agent. -/
def agentUser : TokenData :=
  { sub := "agent-1", tenant_id := PUBLIC_TENANT, role := "support_agent" }

/-- A standard member of acme (and of nothing else). -/
def memberUser : TokenData :=
  { sub := "user-7", tenant_id := PUBLIC_TENANT, role := "standard" }

/-- user-7's membership row on acme. -/
def acmeMembership : UserTenant :=
  { id := "m-2", user_id := "user-7", tenant_id := "tenant-A",
    role := .member, support_access_enabled := false,
    support_access_expires_at := none, support_access_granted_by := none,
    is_active := true }

/-- Store for the support-boundary scenario. -/
def dbC2 : ResolverDb :=
  { tenants := [tenantAcme], memberships := [supportMembership],
    support_logs := [] }

/-- Store for the two-tenant denial scenario: user-7 is a member of acme
only. -/
def dbC6 : ResolverDb :=
  { tenants := [tenantAcme, tenantBeta], memberships := [acmeMembership],
    support_logs := [] }

/-- A platform administrator with no membership rows anywhere. -/
def adminUser : TokenData :=
  { sub := "root-1", tenant_id := PUBLIC_TENANT, role := "platform_admin" }

/-- An impersonation session that expired at time 50. -/
def expiredSession : ImpSession :=
  { user_id := "agent-1", user_role := "support_agent",
    tenant_id := "tenant-A", tenant_slug := "acme", tenant_name := "Acme",
    started_at := 0, expires_at := 50 }

/-- A final provider page: nothing to reconcile, `has_more = false`. -/
def pageDone : SyncPage :=
  { added := [], modified := [], removed := [],
    next_cursor := "c2", has_more := false }

/-- A batch run whose very first page fetch raises. -/
def failRunW : BatchItemRun :=
  { item := itemA, decrypted := some "tok", responses := [none] }

/-- A second active item whose run completes in one page. -/
def itemB : PlaidItem :=
  { id := "item-2", tenant_id := "tenant-2", user_id := "user-2",
    item_id := "plaid-item-2", encrypted_access_token := "enc2",
    institution_id := none, institution_name := none,
    transaction_cursor := none, is_active := true,
    last_synced_at := none, created_at := 0, updated_at := none }

/-- A batch run that succeeds. -/
def okRunW : BatchItemRun :=
  { item := itemB, decrypted := some "tok2", responses := [some pageDone] }

/-! ## Theorems -/

/-- C2: resolving "acme" as a support agent with the correct configured
support token, where the caller's active membership has
`support_access_enabled = true` and `support_access_expires_at` equal to the
current instant (1000): resolution SUCCEEDS — returning membership = none,
`is_support_access = true`, and appending the `data_viewed` audit row with
the caller's network origin — even though the expiry is not in the future
(`¬ 1000 < 1000` holds, the code only rejects `expires_at < now`).  The
claim, like the function's own docstring (`support_access_expires_at > now`),
requires denial here, so the code is wrong at the boundary. -/
theorem C2_expiry_boundary :
    (get_current_tenant dbC2 none (some "acme") (some "tok-1") (some "tok-1")
        agentUser (some "198.51.100.7") 1000 ("f1", "f2")).result
      = .ok { tenant := tenantAcme, user_membership := none,
              is_support_access := true, is_platform_admin := false }
    ∧ supportMembership.support_access_expires_at = some 1000
    ∧ ¬ (1000 < 1000)
    ∧ (get_current_tenant dbC2 none (some "acme") (some "tok-1") (some "tok-1")
        agentUser (some "198.51.100.7") 1000 ("f1", "f2")).db.support_logs
      = [{ support_user_id := "agent-1", tenant_id := "tenant-A",
           action := "data_viewed", reason := none,
           ip_address := some "198.51.100.7" }] := by
  decide

/-- C5 (counterexample): a session that expired at time 50, still present in
the store at time 100, is ended by its owner through the NORMAL end path —
the call returns success, deletes the session and appends an
`impersonation_ended` audit row — rather than failing NotFound, because
`end_impersonation` never purges expired sessions before its lookup. -/
theorem C5_expired_end_counterexample :
    expiredSession.expires_at < 100
    ∧ (end_impersonation [("sid-1", expiredSession)] [] "sid-1" agentUser).1
        = .ended
    ∧ (end_impersonation [("sid-1", expiredSession)] [] "sid-1" agentUser).2.1
        = []
    ∧ (end_impersonation [("sid-1", expiredSession)] [] "sid-1" agentUser).2.2
        ≠ [] := by
  decide

/-- C5 (amended): the listing operation does purge first, so `list_active`
never returns a session whose expiry has passed; but `end` fails NotFound
exactly when the session id is absent from the store — an expired session
that a prior purge has not yet removed is still found and ended via the
normal path. -/
theorem C5_expired_sessions_amended (store : SessionStore)
    (logs : List SupportAccessLog) (user : TokenData) (now : Nat) :
    (∀ kv, kv ∈ (get_active_sessions store user now).2 →
      ¬ (kv.2.expires_at < now))
    ∧ ∀ sid, ((end_impersonation store logs sid user).1 = EndResult.notFound
        ↔ store.find? (fun kv => kv.1 == sid) = none) := by
  constructor
  · intro kv hkv
    have h1 : kv ∈ cleanup_expired_sessions store now := by
      have := List.mem_filter.mp hkv
      exact this.1
    have h2 := (List.mem_filter.mp h1).2
    simpa using h2
  · intro sid
    unfold end_impersonation
    cases hfind : store.find? (fun kv => kv.1 == sid) with
    | none => simp
    | some kv =>
      simp only [hfind]
      constructor
      · intro h
        by_cases hown : (kv.2.user_id != user.sub && user.role != "platform_admin") = true
        · simp [hown] at h
        · simp [hown] at h
      · intro h
        exact absurd h (by simp)

/-- C5 (amended) witness: at a concrete store holding one unexpired session
of agent-1 at time 10, the listing excludes nothing expired and `end` on a
missing id reports NotFound. -/
theorem C5_expired_sessions_amended_witness :
    (∀ kv, kv ∈ (get_active_sessions [("sid-1", expiredSession)] agentUser 10).2 →
      ¬ (kv.2.expires_at < 10))
    ∧ ∀ sid, ((end_impersonation [("sid-1", expiredSession)] [] sid agentUser).1
          = EndResult.notFound
        ↔ List.find? (fun kv => kv.1 == sid) [("sid-1", expiredSession)] = none) :=
  C5_expired_sessions_amended [("sid-1", expiredSession)] [] agentUser 10

/-- C7: the due-items batch entry point cannot perform its documented
filtering at all — `sync_due_items` builds its WHERE clause from
`PlaidItem.sync_frequency_hours`, but the PlaidItem model declares no such
column, so every call (here: configured credentials and a single
never-synced active item) raises AttributeError before reading any item.
The documented filter itself (modelled as `intendedDueFilter`) does behave
exactly as the claim's scenario demands: never-synced → due, synced 2 hours
ago with a 6-hour frequency → not due, synced 7 hours ago → due. -/
theorem C7_sync_due_missing_column :
    ¬ ("sync_frequency_hours" ∈ plaidItemColumns)
    ∧ syncDueItems cfgOk [dueRun] 1000000 = .error .attributeError
    ∧ intendedDueFilter 1000000 none 6 = true
    ∧ intendedDueFilter 1000000 (some (1000000 - 7200)) 6 = false
    ∧ intendedDueFilter 1000000 (some (1000000 - 25200)) 6 = true := by
  decide

/-- C10 (counterexample): with the isolation-key context variable set to the
empty string, the session opens with `SET app.current_tenant` to the public
sentinel, not to the variable's current value — Python's
`current_tenant_id.get() or PUBLIC_TENANT` treats the set-but-empty value as
unset. -/
theorem C10_rls_counterexample :
    (get_db (some "") false).head?
      = some (DbSessionOp.set_tenant PUBLIC_TENANT)
    ∧ (some "" : Option String) ≠ none
    ∧ PUBLIC_TENANT ≠ "" := by
  decide

/-- C10 (amended): every session from `get_db` opens by setting the RLS
tenant variable to the context variable's value when one is set and
non-empty, and to the public sentinel when it is unset or empty; any tenant
id it ever sets is either the context variable's value or the sentinel
(never another tenant's id); and on both exit paths — body succeeds or
raises — the last statement resets the variable. -/
theorem C10_rls_amended (ctx : Option String) (bodyRaises : Bool) :
    (∀ t, ctx = some t → t ≠ "" →
      (get_db ctx bodyRaises).head? = some (DbSessionOp.set_tenant t))
    ∧ (ctx = none →
      (get_db ctx bodyRaises).head? = some (DbSessionOp.set_tenant PUBLIC_TENANT))
    ∧ (ctx = some "" →
      (get_db ctx bodyRaises).head? = some (DbSessionOp.set_tenant PUBLIC_TENANT))
    ∧ (get_db ctx bodyRaises).getLast? = some DbSessionOp.reset_tenant
    ∧ (∀ t1, DbSessionOp.set_tenant t1 ∈ get_db ctx bodyRaises →
        ctx = some t1 ∨ t1 = PUBLIC_TENANT) := by
  refine ⟨?_, ?_, ?_, ?_, ?_⟩
  · intro t ht hne
    subst ht
    cases bodyRaises <;> simp [get_db, hne]
  · intro h
    subst h
    cases bodyRaises <;> simp [get_db]
  · intro h
    subst h
    cases bodyRaises <;> simp [get_db]
  · cases ctx <;> cases bodyRaises <;> simp [get_db]
  · intro t1 hmem
    cases ctx with
    | none =>
      cases bodyRaises <;> simp [get_db] at hmem <;> simp [hmem]
    | some t =>
      by_cases he : t = ""
      · subst he
        cases bodyRaises <;> simp [get_db] at hmem <;> simp [hmem]
      · cases bodyRaises <;> simp [get_db, he] at hmem <;> simp [hmem]

/-- C10 (amended) witness: concrete session open for tenant-B with a raising
body: opens with tenant-B, closes with the reset. -/
theorem C10_rls_amended_witness :
    (get_db (some "tenant-B") true).head?
      = some (DbSessionOp.set_tenant "tenant-B")
    ∧ (get_db (some "tenant-B") true).getLast? = some DbSessionOp.reset_tenant :=
  ⟨(C10_rls_amended (some "tenant-B") true).1 "tenant-B" rfl (by decide),
   (C10_rls_amended (some "tenant-B") true).2.2.2.1⟩

/-- Helper: whenever the page loop ends in an exception, the item row it
hands back is exactly the one it was given — the cursor/last-synced write
after the loop never ran. -/
theorem syncPagesLoop_err_item (item : PlaidItem) (now : Nat) :
    ∀ (responses : List (Option SyncPage)) (c : String)
      (db : List TransactionRow) (s : SyncSummary)
      {item1 : PlaidItem} {db1 : List TransactionRow} {s1 : SyncSummary},
      syncPagesLoop item now responses c db s = .err item1 db1 s1 →
      item1 = item := by
  intro responses
  induction responses with
  | nil =>
    intro c db s item1 db1 s1 h
    simp only [syncPagesLoop] at h
    cases h
    rfl
  | cons head tail ih =>
    intro c db s item1 db1 s1 h
    cases head with
    | none =>
      simp only [syncPagesLoop] at h
      cases h
      rfl
    | some page =>
      simp only [syncPagesLoop] at h
      split at h
      · exact ih _ _ _ h
      · cases h

/-- C1 (amended): when a later page fetch (or the initial decryption) raises,
the per-item sync persists NO cursor update at all: the item row comes out
exactly as it went in, so the resume cursor equals the cursor the item
STARTED the run with — not the continuation token of the last successfully
processed page.  (The cursor/last-synced write sits after the whole loop and
is skipped by the exception; the page upserts and counter increments made so
far are retained.) -/
theorem C1_cursor_on_failure (item : PlaidItem) (decrypted : Option String)
    (responses : List (Option SyncPage)) (db : List TransactionRow)
    (s : SyncSummary) (now : Nat) (item1 : PlaidItem)
    (db1 : List TransactionRow) (s1 : SyncSummary)
    (h : syncItemTransactions item decrypted responses db s now
        = .err item1 db1 s1) :
    item1 = item ∧ item1.transaction_cursor = item.transaction_cursor := by
  have hi : item1 = item := by
    cases decrypted with
    | none =>
      simp only [syncItemTransactions] at h
      cases h
      rfl
    | some tok =>
      simp only [syncItemTransactions] at h
      exact syncPagesLoop_err_item item now responses _ db s h
  exact ⟨hi, by rw [hi]⟩

/-- C1 (amended) witness: the concrete two-page scenario (first page adds T1
with `next_cursor="c1"`, `has_more=true`; second fetch raises) instantiates
the theorem: the persisted item is unchanged. -/
theorem C1_cursor_on_failure_witness :
    itemA = itemA ∧ itemA.transaction_cursor = itemA.transaction_cursor :=
  C1_cursor_on_failure itemA (some "tok") [some pageC1, none] [] {} 999 itemA
    [newTransactionRow itemA txnT1 999] { transactions_added := 1 } (by decide)

/-- C1 (counterexample): in exactly the claim's scenario — resume cursor
"c0", first page returns `next_cursor="c1"` with `has_more=true`, the second
page fetch throws — the run fails, the first page's add was counted, and the
item's persisted cursor is still "c0", NOT "c1": partial cursor progress is
rolled back to the original cursor, contrary to the claim. -/
theorem C1_cursor_counterexample :
    (syncItemTransactions itemA (some "tok") [some pageC1, none] [] {} 999).itemOf.transaction_cursor
      = some "c0"
    ∧ (syncItemTransactions itemA (some "tok") [some pageC1, none] [] {} 999).itemOf.transaction_cursor
      ≠ some "c1"
    ∧ (syncItemTransactions itemA (some "tok") [some pageC1, none] [] {} 999).isErr
      = true
    ∧ (syncItemTransactions itemA (some "tok") [some pageC1, none] [] {} 999).summaryOf.transactions_added
      = 1 := by
  decide

/-- C3: a platform_admin resolving any existing active tenant by slug always
succeeds with membership = none, `is_support_access = false` and
`is_platform_admin = true`; the outcome is the same for EVERY membership
table, support token and support secret (none of them are consulted), the
store is untouched (no audit write), and the isolation key is set to the
tenant's id. -/
theorem C3_platform_admin_bypass (db : ResolverDb) (ctx0 : Option String)
    (slug : String) (token secret : Option String) (user : TokenData)
    (ip : Option String) (now : Nat) (fresh : String × String)
    (hrole : user.role = "platform_admin")
    (h1 : slug ≠ "") (h2 : slug ≠ "personal")
    (tenant : Tenant) (hfind : get_tenant_by_slug db slug = some tenant) :
    get_current_tenant db ctx0 (some slug) token secret user ip now fresh
      = { result := .ok { tenant := tenant, user_membership := none,
                          is_support_access := false, is_platform_admin := true },
          db := db, ctxVar := some tenant.id } := by
  unfold get_current_tenant
  simp [h1, h2, hfind, hrole]

/-- C3 witness: the admin (who has no membership row anywhere in `dbC6`)
resolves "beta" successfully. -/
theorem C3_platform_admin_bypass_witness :
    get_current_tenant dbC6 none (some "beta") none none adminUser none 0
        ("f1", "f2")
      = { result := .ok { tenant := tenantBeta, user_membership := none,
                          is_support_access := false, is_platform_admin := true },
          db := dbC6, ctxVar := some tenantBeta.id } :=
  C3_platform_admin_bypass dbC6 none "beta" none none adminUser none 0
    ("f1", "f2") rfl (by decide) (by decide) tenantBeta (by decide)

/-- C6: whenever resolution by slug finds an existing active tenant and then
raises Forbidden (non-member standard caller, bad support token, or missing
support access), the `current_tenant_id` context variable has already been
set to that tenant's id — the outcome carries `ctxVar = some tenant.id` on
the denial path. -/
theorem C6_isolation_key_before_denial (db : ResolverDb) (ctx0 : Option String)
    (slug : String) (token secret : Option String) (user : TokenData)
    (ip : Option String) (now : Nat) (fresh : String × String)
    (h1 : slug ≠ "") (h2 : slug ≠ "personal")
    (tenant : Tenant) (hfind : get_tenant_by_slug db slug = some tenant)
    (hfail : (get_current_tenant db ctx0 (some slug) token secret user ip now
        fresh).result = .error .forbidden) :
    (get_current_tenant db ctx0 (some slug) token secret user ip now
        fresh).ctxVar = some tenant.id := by
  clear hfail
  have hp : (slug == "" || slug == "personal") = false := by simp [h1, h2]
  unfold get_current_tenant
  simp only [hp, Bool.false_eq_true, if_false, Option.getD_some, hfind]
  repeat' split
  all_goals rfl

/-- C6 witness: the claim's two-tenant scenario — user-7, a standard member
of acme only, resolves "beta": the run fails Forbidden, and the isolation
key was already set to tenant-B's id. -/
theorem C6_isolation_key_before_denial_witness :
    (get_current_tenant dbC6 none (some "beta") none none memberUser none 0
        ("f1", "f2")).ctxVar = some tenantBeta.id :=
  C6_isolation_key_before_denial dbC6 none "beta" none none memberUser none 0
    ("f1", "f2") (by decide) (by decide) tenantBeta (by decide) (by decide)

/-- Helper: the conflict-update never touches the upsert key. -/
theorem updateOnConflict_key (r : TransactionRow) (txn : PlaidTxnPayload)
    (now : Nat) :
    (updateOnConflict r txn now).plaid_transaction_id = r.plaid_transaction_id :=
  rfl

/-- Helper: after an upsert, some stored row carries the payload's key. -/
theorem upsert_any_key (db : List TransactionRow) (item : PlaidItem)
    (txn : PlaidTxnPayload) (t : Nat) :
    (upsertTransaction db item txn t).any
      (fun r => r.plaid_transaction_id == txn.transaction_id) = true := by
  unfold upsertTransaction
  by_cases h : db.any (fun r => r.plaid_transaction_id == txn.transaction_id) = true
  · rw [if_pos h]
    rcases List.any_eq_true.mp h with ⟨r, hr, hkey⟩
    refine List.any_eq_true.mpr ⟨updateOnConflict r txn t,
      List.mem_map.mpr ⟨r, hr, ?_⟩, ?_⟩
    · rw [if_pos hkey]
    · rw [updateOnConflict_key]
      exact hkey
  · rw [if_neg h]
    simp [List.any_append, newTransactionRow]

/-- Helper: any stored row carrying the payload's key after an upsert of that
payload already holds the payload's mutable-field values, so re-applying the
conflict-update to it changes nothing beyond `updated_at`. -/
theorem mem_upsert_update_stable (db : List TransactionRow) (item : PlaidItem)
    (txn : PlaidTxnPayload) (t1 t2 : Nat) (r1 : TransactionRow)
    (hmem : r1 ∈ upsertTransaction db item txn t1)
    (hkey : (r1.plaid_transaction_id == txn.transaction_id) = true) :
    stripUpdatedAt (updateOnConflict r1 txn t2) = stripUpdatedAt r1 := by
  unfold upsertTransaction at hmem
  by_cases h : db.any (fun r => r.plaid_transaction_id == txn.transaction_id) = true
  · rw [if_pos h] at hmem
    rcases List.mem_map.mp hmem with ⟨r0, hr0, hf⟩
    by_cases hk0 : (r0.plaid_transaction_id == txn.transaction_id) = true
    · rw [if_pos hk0] at hf
      subst hf
      rfl
    · rw [if_neg hk0] at hf
      subst hf
      exact absurd hkey hk0
  · rw [if_neg h] at hmem
    rcases List.mem_append.mp hmem with h1 | h1
    · exact absurd (List.any_eq_true.mpr ⟨r1, h1, hkey⟩) h
    · have h2 : r1 = newTransactionRow item txn t1 := by simpa using h1
      subst h2
      rfl

/-- C4: the external (Plaid) transaction id is the upsert key: re-applying
the same add/modify payload — even attributed to a different parent item —
leaves the stored table unchanged beyond `updated_at` bookkeeping and
inserts no duplicate row (the row count is unchanged); in particular each
row's `tenant_id`, `plaid_item_id` and `created_at` stay exactly as created,
since the conflict-update overwrites only the mutable fields (amount, name,
merchant name, categories, pending flag, payment channel). -/
theorem C4_upsert_idempotent (db : List TransactionRow) (item item2 : PlaidItem)
    (txn : PlaidTxnPayload) (t1 t2 : Nat) :
    (upsertTransaction (upsertTransaction db item txn t1) item2 txn t2).map
        stripUpdatedAt
      = (upsertTransaction db item txn t1).map stripUpdatedAt
    ∧ (upsertTransaction (upsertTransaction db item txn t1) item2 txn t2).length
      = (upsertTransaction db item txn t1).length := by
  have hany := upsert_any_key db item txn t1
  have hstep : upsertTransaction (upsertTransaction db item txn t1) item2 txn t2
      = (upsertTransaction db item txn t1).map
          (fun r => if r.plaid_transaction_id == txn.transaction_id then
            updateOnConflict r txn t2 else r) := by
    conv_lhs => rw [upsertTransaction]
    rw [if_pos hany]
  constructor
  · rw [hstep, List.map_map]
    apply List.map_congr_left
    intro r1 hr1
    by_cases hk : (r1.plaid_transaction_id == txn.transaction_id) = true
    · simp only [Function.comp_apply, if_pos hk]
      exact mem_upsert_update_stable db item txn t1 t2 r1 hr1 hk
    · simp only [Function.comp_apply, if_neg hk]
  · rw [hstep, List.length_map]

/-- Helper: the added-entries fold bumps exactly `transactions_added`, once
per entry. -/
theorem foldAdded_summary (item : PlaidItem) (now : Nat) :
    ∀ (l : List PlaidTxnPayload) (st : List TransactionRow × SyncSummary),
      (l.foldl (fun st txn =>
        (upsertTransaction st.1 item txn now,
         { st.2 with transactions_added := st.2.transactions_added + 1 })) st).2
      = { st.2 with
          transactions_added := st.2.transactions_added + l.length } := by
  intro l
  induction l with
  | nil =>
    intro st
    simp
  | cons a l ih =>
    intro st
    rw [List.foldl_cons, ih]
    dsimp only
    simp only [List.length_cons]
    congr 1
    omega

/-- Helper: the modified-entries fold bumps exactly
`transactions_modified`, once per entry. -/
theorem foldModified_summary (item : PlaidItem) (now : Nat) :
    ∀ (l : List PlaidTxnPayload) (st : List TransactionRow × SyncSummary),
      (l.foldl (fun st txn =>
        (upsertTransaction st.1 item txn now,
         { st.2 with transactions_modified := st.2.transactions_modified + 1 })) st).2
      = { st.2 with
          transactions_modified := st.2.transactions_modified + l.length } := by
  intro l
  induction l with
  | nil =>
    intro st
    simp
  | cons a l ih =>
    intro st
    rw [List.foldl_cons, ih]
    dsimp only
    simp only [List.length_cons]
    congr 1
    omega

/-- Helper: the removed-entries fold bumps exactly `transactions_removed`,
once per entry. -/
theorem foldRemoved_summary :
    ∀ (l : List String) (st : List TransactionRow × SyncSummary),
      (l.foldl (fun st txid =>
        (removeTransaction st.1 txid,
         { st.2 with transactions_removed := st.2.transactions_removed + 1 })) st).2
      = { st.2 with
          transactions_removed := st.2.transactions_removed + l.length } := by
  intro l
  induction l with
  | nil =>
    intro st
    simp
  | cons a l ih =>
    intro st
    rw [List.foldl_cons, ih]
    dsimp only
    simp only [List.length_cons]
    congr 1
    omega

/-- Helper: one page's processing adds exactly the page's entry counts to the
three transaction counters and leaves the item counters untouched. -/
theorem processPage_summary (item : PlaidItem) (page : SyncPage) (now : Nat)
    (db : List TransactionRow) (s : SyncSummary) :
    (processPage item page now (db, s)).2
      = { s with
          transactions_added := s.transactions_added + page.added.length,
          transactions_modified :=
            s.transactions_modified + page.modified.length,
          transactions_removed :=
            s.transactions_removed + page.removed.length } := by
  simp only [processPage]
  rw [foldRemoved_summary, foldModified_summary, foldAdded_summary]

/-- Helper: folding a whole page list accumulates the page totals onto the
transaction counters and leaves the item counters untouched. -/
theorem applyPages_summary (item : PlaidItem) (now : Nat) :
    ∀ (pages : List SyncPage) (db : List TransactionRow) (s : SyncSummary),
      (applyPages item now pages (db, s)).2
      = { s with
          transactions_added := s.transactions_added + pagesAdded pages,
          transactions_modified :=
            s.transactions_modified + pagesModified pages,
          transactions_removed :=
            s.transactions_removed + pagesRemoved pages } := by
  intro pages
  induction pages with
  | nil =>
    intro db s
    simp [applyPages, pagesAdded, pagesModified, pagesRemoved]
  | cons p rest ih =>
    intro db s
    have hcons : applyPages item now (p :: rest) (db, s)
        = applyPages item now rest (processPage item p now (db, s)) := rfl
    have hpair : processPage item p now (db, s)
        = ((processPage item p now (db, s)).1,
           (processPage item p now (db, s)).2) := rfl
    rw [hcons, hpair, ih, processPage_summary]
    dsimp only
    have ha : pagesAdded (p :: rest) = p.added.length + pagesAdded rest := by
      simp [pagesAdded]
    have hm : pagesModified (p :: rest)
        = p.modified.length + pagesModified rest := by
      simp [pagesModified]
    have hr : pagesRemoved (p :: rest)
        = p.removed.length + pagesRemoved rest := by
      simp [pagesRemoved]
    rw [ha, hm, hr]
    congr 1 <;> omega

/-- Helper: `summaryLe` is reflexive. -/
theorem summaryLe_refl (s : SyncSummary) : summaryLe s s := by
  unfold summaryLe
  omega

/-- Helper: `summaryLe` is transitive. -/
theorem summaryLe_trans (a b c : SyncSummary) (h1 : summaryLe a b)
    (h2 : summaryLe b c) : summaryLe a c := by
  unfold summaryLe at h1 h2 ⊢
  omega

/-- Helper: page processing only increases counters. -/
theorem processPage_le (item : PlaidItem) (page : SyncPage) (now : Nat)
    (db : List TransactionRow) (s : SyncSummary) :
    summaryLe s (processPage item page now (db, s)).2 := by
  rw [processPage_summary]
  unfold summaryLe
  dsimp only
  omega

/-- Helper: the page loop only increases counters. -/
theorem syncPagesLoop_le (item : PlaidItem) (now : Nat) :
    ∀ (responses : List (Option SyncPage)) (c : String)
      (db : List TransactionRow) (s : SyncSummary),
      summaryLe s (syncPagesLoop item now responses c db s).summaryOf := by
  intro responses
  induction responses with
  | nil => intro c db s; exact summaryLe_refl s
  | cons head tail ih =>
    intro c db s
    cases head with
    | none => exact summaryLe_refl s
    | some page =>
      simp only [syncPagesLoop]
      by_cases hm : page.has_more = true
      · rw [if_pos hm]
        exact summaryLe_trans _ _ _ (processPage_le item page now db s)
          (ih page.next_cursor _ _)
      · rw [if_neg hm]
        exact processPage_le item page now db s

/-- Helper: a whole per-item run only increases counters. -/
theorem syncItemTransactions_le (item : PlaidItem) (d : Option String)
    (responses : List (Option SyncPage)) (db : List TransactionRow)
    (s : SyncSummary) (now : Nat) :
    summaryLe s (syncItemTransactions item d responses db s now).summaryOf := by
  cases d with
  | none => exact summaryLe_refl s
  | some tok => exact syncPagesLoop_le item now responses _ db s

/-- Helper: the page loop raises exactly when the response stream fails
before a page reports `has_more = false`. -/
theorem syncPagesLoop_isErr (item : PlaidItem) (now : Nat) :
    ∀ (responses : List (Option SyncPage)) (c : String)
      (db : List TransactionRow) (s : SyncSummary),
      (syncPagesLoop item now responses c db s).isErr = pagesFail responses := by
  intro responses
  induction responses with
  | nil => intro c db s; rfl
  | cons head tail ih =>
    intro c db s
    cases head with
    | none => rfl
    | some page =>
      simp only [syncPagesLoop, pagesFail]
      by_cases hm : page.has_more = true
      · rw [if_pos hm, if_pos hm]
        exact ih page.next_cursor _ _
      · rw [if_neg hm, if_neg hm]
        rfl

/-- Helper: whether a per-item run raises depends only on the decryption
outcome and the response stream — `runFails` decides it, whatever the
database contents and counters are. -/
theorem syncItemTransactions_isErr (item : PlaidItem) (d : Option String)
    (responses : List (Option SyncPage)) (db : List TransactionRow)
    (s : SyncSummary) (now : Nat) :
    (syncItemTransactions item d responses db s now).isErr
      = (d.isNone || pagesFail responses) := by
  cases d with
  | none => rfl
  | some tok =>
    simp only [syncItemTransactions, Option.isNone_some, Bool.false_or]
    exact syncPagesLoop_isErr item now responses _ db s

/-- Helper: the page loop never touches the three item-level counters. -/
theorem syncPagesLoop_item_counters (item : PlaidItem) (now : Nat) :
    ∀ (responses : List (Option SyncPage)) (c : String)
      (db : List TransactionRow) (s : SyncSummary),
      ((syncPagesLoop item now responses c db s).summaryOf.items_processed
          = s.items_processed)
      ∧ ((syncPagesLoop item now responses c db s).summaryOf.items_skipped
          = s.items_skipped)
      ∧ ((syncPagesLoop item now responses c db s).summaryOf.items_failed
          = s.items_failed) := by
  intro responses
  induction responses with
  | nil => intro c db s; exact ⟨rfl, rfl, rfl⟩
  | cons head tail ih =>
    intro c db s
    cases head with
    | none => exact ⟨rfl, rfl, rfl⟩
    | some page =>
      simp only [syncPagesLoop]
      by_cases hm : page.has_more = true
      · rw [if_pos hm]
        refine ⟨?_, ?_, ?_⟩
        · rw [(ih page.next_cursor (processPage item page now (db, s)).1
            (processPage item page now (db, s)).2).1, processPage_summary]
        · rw [(ih page.next_cursor (processPage item page now (db, s)).1
            (processPage item page now (db, s)).2).2.1, processPage_summary]
        · rw [(ih page.next_cursor (processPage item page now (db, s)).1
            (processPage item page now (db, s)).2).2.2, processPage_summary]
      · rw [if_neg hm]
        refine ⟨?_, ?_, ?_⟩ <;> dsimp only [ItemSyncResult.summaryOf] <;>
          rw [processPage_summary]

/-- Helper: a whole per-item run never touches the item-level counters. -/
theorem syncItemTransactions_item_counters (item : PlaidItem)
    (d : Option String) (responses : List (Option SyncPage))
    (db : List TransactionRow) (s : SyncSummary) (now : Nat) :
    ((syncItemTransactions item d responses db s now).summaryOf.items_processed
        = s.items_processed)
    ∧ ((syncItemTransactions item d responses db s now).summaryOf.items_skipped
        = s.items_skipped)
    ∧ ((syncItemTransactions item d responses db s now).summaryOf.items_failed
        = s.items_failed) := by
  cases d with
  | none => exact ⟨rfl, rfl, rfl⟩
  | some tok => exact syncPagesLoop_item_counters item now responses _ db s

/-- Helper: when the provider yields a run of `has_more` pages and then the
next fetch raises, the loop ends in the error outcome carrying exactly the
reconciliation (database and counters) of the successfully processed pages —
nothing is rolled back, and the item row is untouched. -/
theorem syncPagesLoop_fail_tail (item : PlaidItem) (now : Nat) :
    ∀ (pages : List SyncPage), (∀ p ∈ pages, p.has_more = true) →
      ∀ (c : String) (db : List TransactionRow) (s : SyncSummary),
      syncPagesLoop item now (pages.map some ++ [none]) c db s
        = .err item (applyPages item now pages (db, s)).1
            (applyPages item now pages (db, s)).2 := by
  intro pages
  induction pages with
  | nil =>
    intro _ c db s
    rfl
  | cons p rest ih =>
    intro hp c db s
    have hm : p.has_more = true := hp p (by simp)
    simp only [List.map_cons, List.cons_append, syncPagesLoop]
    rw [if_pos hm]
    exact ih (fun q hq => hp q (by simp [hq])) p.next_cursor
      (processPage item p now (db, s)).1 (processPage item p now (db, s)).2

/-- Helper: the batch loop only increases counters. -/
theorem runBatchLoop_le (now : Nat) :
    ∀ (runs : List BatchItemRun) (acc : List PlaidItem)
      (db : List TransactionRow) (s : SyncSummary),
      summaryLe s (runBatchLoop now runs acc db s).2.2 := by
  intro runs
  induction runs with
  | nil => intro acc db s; exact summaryLe_refl s
  | cons r rest ih =>
    intro acc db s
    simp only [runBatchLoop]
    cases hres : syncItemTransactions r.item r.decrypted r.responses db s now with
    | ok item1 db1 s1 =>
      have h1 : summaryLe s s1 := by
        have h2 := syncItemTransactions_le r.item r.decrypted r.responses db s now
        rw [hres] at h2
        exact h2
      refine summaryLe_trans _ _ _ h1 (summaryLe_trans _ _ _ ?_ (ih _ _ _))
      unfold summaryLe
      dsimp only
      omega
    | err item1 db1 s1 =>
      have h1 : summaryLe s s1 := by
        have h2 := syncItemTransactions_le r.item r.decrypted r.responses db s now
        rw [hres] at h2
        exact h2
      refine summaryLe_trans _ _ _ h1 (summaryLe_trans _ _ _ ?_ (ih _ _ _))
      unfold summaryLe
      dsimp only
      omega

/-- Helper: the batch loop attempts every listed run — a failing run
increments `items_failed` and the loop continues — so the final counters are
the initial ones plus the number of failing and non-failing runs
respectively, and one item row comes back per run. -/
theorem runBatchLoop_counts (now : Nat) :
    ∀ (runs : List BatchItemRun) (acc : List PlaidItem)
      (db : List TransactionRow) (s : SyncSummary),
      ((runBatchLoop now runs acc db s).2.2.items_failed
          = s.items_failed + (runs.filter runFails).length)
      ∧ ((runBatchLoop now runs acc db s).2.2.items_processed
          = s.items_processed
            + (runs.filter (fun r => !runFails r)).length)
      ∧ ((runBatchLoop now runs acc db s).1.length
          = acc.length + runs.length) := by
  intro runs
  induction runs with
  | nil =>
    intro acc db s
    refine ⟨by simp [runBatchLoop], by simp [runBatchLoop], ?_⟩
    simp [runBatchLoop]
  | cons r rest ih =>
    intro acc db s
    have hclass := syncItemTransactions_isErr r.item r.decrypted r.responses
      db s now
    have hcnt := syncItemTransactions_item_counters r.item r.decrypted
      r.responses db s now
    simp only [runBatchLoop]
    cases hres : syncItemTransactions r.item r.decrypted r.responses db s now with
    | ok item1 db1 s1 =>
      rw [hres] at hclass hcnt
      have hfails : runFails r = false := by
        unfold runFails
        rw [← hclass]
        rfl
      obtain ⟨hc1, hc2, hc3⟩ := hcnt
      obtain ⟨ih1, ih2, ih3⟩ := ih (item1 :: acc) db1
        { s1 with items_processed := s1.items_processed + 1 }
      refine ⟨?_, ?_, ?_⟩
      · rw [ih1]
        try simp only [ItemSyncResult.summaryOf] at hc3
        simp [List.filter_cons, hfails]
        try omega
      · rw [ih2]
        try simp only [ItemSyncResult.summaryOf] at hc1
        simp [List.filter_cons, hfails]
        try omega
      · rw [ih3]
        simp only [List.length_cons]
        omega
    | err item1 db1 s1 =>
      rw [hres] at hclass hcnt
      have hfails : runFails r = true := by
        unfold runFails
        rw [← hclass]
        rfl
      obtain ⟨hc1, hc2, hc3⟩ := hcnt
      obtain ⟨ih1, ih2, ih3⟩ := ih (item1 :: acc) db1
        { s1 with items_failed := s1.items_failed + 1 }
      refine ⟨?_, ?_, ?_⟩
      · rw [ih1]
        try simp only [ItemSyncResult.summaryOf] at hc3
        simp [List.filter_cons, hfails]
        try omega
      · rw [ih2]
        try simp only [ItemSyncResult.summaryOf] at hc1
        simp [List.filter_cons, hfails]
        try omega
      · rw [ih3]
        simp only [List.length_cons]
        omega

/-- C8 (amended, the `sync_transactions` / sync-all-active half): with
provider credentials configured the batch call ALWAYS returns an aggregate
summary; every active item is attempted (one result row per active run);
each failing run adds one to `items_failed` and each non-failing run adds
one to `items_processed`, whatever order failures occur in — one item's
failure never aborts the batch; and with credentials missing the whole call
fails immediately with the configuration error. -/
theorem C8_batch_isolation (cfg : PlaidConfig) (runs : List BatchItemRun)
    (db : List TransactionRow) (now : Nat) :
    (plaidClientOk cfg = true →
      ∃ items1 db1 s1,
        syncTransactions cfg runs db now = .ok (items1, db1, s1)
        ∧ s1.items_failed
            = ((runs.filter (fun r => r.item.is_active)).filter runFails).length
        ∧ s1.items_processed
            = ((runs.filter (fun r => r.item.is_active)).filter
                (fun r => !runFails r)).length
        ∧ items1.length = (runs.filter (fun r => r.item.is_active)).length)
    ∧ (plaidClientOk cfg = false →
        syncTransactions cfg runs db now = .error .valueError) := by
  constructor
  · intro hok
    unfold syncTransactions
    rw [if_pos hok]
    obtain ⟨h1, h2, h3⟩ := runBatchLoop_counts now
      (runs.filter (fun r => r.item.is_active)) [] db {}
    exact ⟨(runBatchLoop now (runs.filter (fun r => r.item.is_active)) [] db {}).1,
      (runBatchLoop now (runs.filter (fun r => r.item.is_active)) [] db {}).2.1,
      (runBatchLoop now (runs.filter (fun r => r.item.is_active)) [] db {}).2.2,
      rfl, by simpa using h1, by simpa using h2, by simpa using h3⟩
  · intro hbad
    have hne : ¬ (plaidClientOk cfg = true) := by simp [hbad]
    unfold syncTransactions
    rw [if_neg hne]

/-- C8 (amended) witness: a concrete two-item batch — the first item's only
page fetch raises, the second item syncs cleanly — returns a summary with
one failed and one processed item. -/
theorem C8_batch_isolation_witness :
    ∃ items1 db1 s1,
      syncTransactions cfgOk [failRunW, okRunW] [] 999 = .ok (items1, db1, s1)
      ∧ s1.items_failed
          = (([failRunW, okRunW].filter (fun r => r.item.is_active)).filter
              runFails).length
      ∧ s1.items_processed
          = (([failRunW, okRunW].filter (fun r => r.item.is_active)).filter
              (fun r => !runFails r)).length
      ∧ items1.length
          = ([failRunW, okRunW].filter (fun r => r.item.is_active)).length :=
  (C8_batch_isolation cfgOk [failRunW, okRunW] [] 999).1 (by decide)

/-- C8 (counterexample): the claim as stated also covers the sync-due batch
(`sync_due_items`), but there a call with provider credentials fully
configured still fails wholesale — with AttributeError from the missing
`sync_frequency_hours` column — before any per-item processing, so it is NOT
the case that only a missing provider credential configuration fails the
whole call and that the batch otherwise returns an aggregate summary. -/
theorem C8_sync_due_counterexample :
    plaidClientOk cfgOk = true
    ∧ syncDueItems cfgOk [dueRun] 0 = .error .attributeError := by
  decide

/-- C9: pages already processed for an item that subsequently fails mid-run
are kept in full.  First conjunct: the failing item's run returns the
database and counters exactly as accumulated over its successfully processed
pages (`applyPages`) — nothing is subtracted or rolled back.  Second
conjunct: the whole-batch call then returns an aggregate summary whose
added/modified/removed counters include at least those page totals, with the
item recorded in `items_failed`, and the accumulated database is what the
rest of the batch continues (and commits) from. -/
theorem C9_partial_counts_retained (cfg : PlaidConfig)
    (hcfg : plaidClientOk cfg = true) (item : PlaidItem)
    (hact : item.is_active = true) (tok : String) (pages : List SyncPage)
    (hp : ∀ p ∈ pages, p.has_more = true) (rest : List BatchItemRun)
    (db0 : List TransactionRow) (now : Nat) :
    (syncItemTransactions item (some tok) (pages.map some ++ [none]) db0 {} now
      = .err item (applyPages item now pages (db0, {})).1
          (applyPages item now pages (db0, {})).2)
    ∧ ∀ items1 db1 s1,
        syncTransactions cfg
            ({ item := item, decrypted := some tok,
               responses := pages.map some ++ [none] } :: rest) db0 now
          = .ok (items1, db1, s1) →
        pagesAdded pages ≤ s1.transactions_added
        ∧ pagesModified pages ≤ s1.transactions_modified
        ∧ pagesRemoved pages ≤ s1.transactions_removed
        ∧ 1 ≤ s1.items_failed := by
  have hfail1 : syncItemTransactions item (some tok)
      (pages.map some ++ [none]) db0 {} now
      = .err item (applyPages item now pages (db0, {})).1
          (applyPages item now pages (db0, {})).2 := by
    simp only [syncItemTransactions]
    exact syncPagesLoop_fail_tail item now pages hp _ db0 {}
  refine ⟨hfail1, ?_⟩
  intro items1 db1 s1 h
  unfold syncTransactions at h
  rw [if_pos hcfg] at h
  have hfcons : (({ item := item, decrypted := some tok,
                    responses := pages.map some ++ [none] } : BatchItemRun) ::
        rest).filter (fun r => r.item.is_active)
      = ({ item := item, decrypted := some tok,
           responses := pages.map some ++ [none] } : BatchItemRun) ::
        rest.filter (fun r => r.item.is_active) := by
    simp [List.filter_cons, hact]
  rw [hfcons] at h
  have hloop : runBatchLoop now
      (({ item := item, decrypted := some tok,
          responses := pages.map some ++ [none] } : BatchItemRun) ::
        rest.filter (fun r => r.item.is_active)) [] db0 {}
      = runBatchLoop now (rest.filter (fun r => r.item.is_active)) [item]
          (applyPages item now pages (db0, {})).1
          { (applyPages item now pages (db0, {})).2 with
            items_failed :=
              (applyPages item now pages (db0, {})).2.items_failed + 1 } := by
    simp only [runBatchLoop]
    rw [hfail1]
  rw [hloop] at h
  injection h with h1
  have hle := runBatchLoop_le now (rest.filter (fun r => r.item.is_active))
    [item] (applyPages item now pages (db0, {})).1
    { (applyPages item now pages (db0, {})).2 with
      items_failed := (applyPages item now pages (db0, {})).2.items_failed + 1 }
  rw [h1] at hle
  unfold summaryLe at hle
  rw [applyPages_summary] at hle
  simp only at hle
  obtain ⟨l1, l2, l3, l4, l5, l6⟩ := hle
  refine ⟨?_, ?_, ?_, ?_⟩ <;> simp at l3 l4 l5 l6 <;> omega

/-- C9 witness: the one-page-then-raise scenario instantiates the retained
reconciliation: the failing run hands the batch exactly the page's upsert and
counter. -/
theorem C9_partial_counts_retained_witness :
    syncItemTransactions itemA (some "tok") ([pageC1].map some ++ [none]) []
        {} 999
      = .err itemA (applyPages itemA 999 [pageC1] ([], {})).1
          (applyPages itemA 999 [pageC1] ([], {})).2 :=
  (C9_partial_counts_retained cfgOk (by decide) itemA (by decide) "tok"
    [pageC1] (by decide) [] [] 999).1

end ProductCore
